import Mathlib

set_option maxRecDepth 8192

/-!
Shallow embedding of the ext2 driver in `src/kernel/src/misc/ext2.c` of
SnowflakeOS.  The backing device is modelled as a byte-addressed function
`ℕ → ℕ`; every multi-byte field read applies `% 256` to each byte, exactly as
dereferencing a `uint8_t` does.  Machine `uint32_t` arithmetic that can wrap is
written with an explicit `% 2^32`.  Buffers are functions `ℕ → ℕ` and `memcpy`
is a range overwrite.  The C globals (`device`, `block_size`,
`num_block_groups`, the superblock fields used by the code, and the parsed
group-descriptor array) are collected in the mounted-volume state `MState`;
mount-time state, where the superblock and descriptor pointers may still be
null, is `GState`.
-/

/-- Value of one byte of a buffer: dereferencing a `uint8_t*` truncates to 8 bits. -/
def byteAt (f : ℕ → ℕ) (i : ℕ) : ℕ := f i % 256

/-- Little-endian `uint16_t` load at byte offset `i`. -/
def u16At (f : ℕ → ℕ) (i : ℕ) : ℕ := byteAt f i + 256 * byteAt f (i + 1)

/-- Little-endian `uint32_t` load at byte offset `i`. -/
def u32At (f : ℕ → ℕ) (i : ℕ) : ℕ :=
  byteAt f i + 256 * byteAt f (i + 1) + 65536 * byteAt f (i + 2) +
    16777216 * byteAt f (i + 3)

/-- One parsed block-group descriptor (`group_descriptor_t`): physical block
numbers of the block bitmap, inode bitmap and inode table. -/
structure GroupDesc where
  blockBitmap : ℕ
  inodeBitmap : ℕ
  inodeTable : ℕ

/-- The process-wide state a mounted volume presents to every operation:
the `device` byte array, the derived `block_size` and `num_block_groups`
globals, the superblock fields the code reads, and the parsed
group-descriptor array (`gd`). -/
structure MState where
  device : ℕ → ℕ
  blockSize : ℕ
  inodesPerGroup : ℕ
  inodeSize : ℕ
  blocksPerGroup : ℕ
  firstAvailableBlock : ℕ
  numBlockGroups : ℕ
  gd : ℕ → GroupDesc

/-- Content of physical block `b`: `ext2_read_block` copies
`block_size` bytes starting at `device + b*block_size`. -/
def blockContent (st : MState) (b : ℕ) : ℕ → ℕ :=
  fun i => st.device (b * st.blockSize + i)

/-- `memcpy(dst + dstOff, src, len)` on buffers-as-functions. -/
def memcpyF (dst : ℕ → ℕ) (dstOff : ℕ) (src : ℕ → ℕ) (len : ℕ) : ℕ → ℕ :=
  fun i => if dstOff ≤ i ∧ i < dstOff + len then src (i - dstOff) else dst i

/-- `ext2_write_block`: overwrite block `b` of the device with `content`. -/
def writeBlockState (st : MState) (b : ℕ) (content : ℕ → ℕ) : MState :=
  { st with device := fun a =>
      if b * st.blockSize ≤ a ∧ a < b * st.blockSize + st.blockSize then
        content (a - b * st.blockSize)
      else st.device a }

/-- The fields of `inode_t` that the driver reads (offsets from the struct
declaration in ext2.c: size_lower at 4, dbp[k] at 40+4k, sibp/dibp/tibp at
88/92/96, size_upper at 108). -/
structure Inode where
  typePerms : ℕ
  sizeLower : ℕ
  dbp : ℕ → ℕ
  sibp : ℕ
  dibp : ℕ
  tibp : ℕ
  sizeUpper : ℕ

/-- `ext2_get_inode`: `None` for inode 0, otherwise locate the inode record in
its group's inode table and copy it out. -/
def ext2_get_inode (st : MState) (inode : ℕ) : Option Inode :=
  if inode = 0 then none
  else
    let group := (inode - 1) / st.inodesPerGroup
    let tableBlock := (st.gd group).inodeTable
    let blockOffset := ((inode - 1) * st.inodeSize) / st.blockSize
    let indexInBlock := (inode - 1) - blockOffset * (st.blockSize / st.inodeSize)
    let tmp := blockContent st (tableBlock + blockOffset)
    let base := indexInBlock * st.inodeSize
    some
      { typePerms := u16At tmp base
        sizeLower := u32At tmp (base + 4)
        dbp := fun k => u32At tmp (base + 40 + 4 * k)
        sibp := u32At tmp (base + 88)
        dibp := u32At tmp (base + 92)
        tibp := u32At tmp (base + 96)
        sizeUpper := u32At tmp (base + 108) }

/-- Result of `ext2_read_inode_block`: the physical blocks read from the
device in order (`trace`), the caller's buffer after the call (`buf`), and
whether the invalid-inode-block diagnostic was emitted (`err`). -/
structure ReadBlockResult where
  trace : List ℕ
  buf : ℕ → ℕ
  err : Bool

/-- `ext2_read_inode_block`: translate logical block `n` of `ino` through
0 - 3 levels of indirection and read it into `buf`.  Mirrors the source
exactly.  The range guards `12 + p`, `12 + p + p*p` and
`12 + p + p*p + p*p*p` are `uint32_t` expressions, so every addition and
multiplication in them (and the reuse of `p*p` inside the triple branch)
carries an explicit `% 2^32`: at block size 8192 (`p = 2048`) `p*p*p` wraps
to 0 and the triple-indirect range is empty.  The triple-indirect branch's
four reads all target the internal scratch buffer so that the caller's
`buf` is returned unchanged, and its second-level index is `rel % p²` as
written. -/
def ext2_read_inode_block (st : MState) (ino : Inode) (n : ℕ) (buf : ℕ → ℕ) :
    ReadBlockResult :=
  let p := st.blockSize / 4
  if n < 12 then
    { trace := [ino.dbp n]
      buf := memcpyF buf 0 (blockContent st (ino.dbp n)) st.blockSize
      err := false }
  else if n < (12 + p) % 4294967296 then
    let tmp := blockContent st ino.sibp
    let relblock := n - 12
    let b := u32At tmp (4 * relblock)
    { trace := [ino.sibp, b]
      buf := memcpyF buf 0 (blockContent st b) st.blockSize
      err := false }
  else if n < ((12 + p) % 4294967296 + p * p % 4294967296) % 4294967296 then
    let relblock := n - 12 - p
    let offsetA := relblock / p
    let offsetB := relblock % p
    let tmp1 := blockContent st ino.dibp
    let l2 := u32At tmp1 (4 * offsetA)
    let tmp2 := blockContent st l2
    let b := u32At tmp2 (4 * offsetB)
    { trace := [ino.dibp, l2, b]
      buf := memcpyF buf 0 (blockContent st b) st.blockSize
      err := false }
  else if n < (((12 + p) % 4294967296 + p * p % 4294967296) % 4294967296 +
      p * p % 4294967296 * p % 4294967296) % 4294967296 then
    let relblock := n - 12 - p - p * p % 4294967296
    let offsetA := relblock / (p * p % 4294967296)
    let offsetB := relblock % (p * p % 4294967296)
    let offsetC := relblock % p
    let t1 := blockContent st ino.tibp
    let l2 := u32At t1 (4 * offsetA)
    let t2 := blockContent st l2
    let l3 := u32At t2 (4 * offsetB)
    let t3 := blockContent st l3
    let l4 := u32At t3 (4 * offsetC)
    { trace := [ino.tibp, l2, l3, l4], buf := buf, err := false }
  else
    { trace := [], buf := buf, err := true }

/-- The `for (block_no = start_block; block_no < end_block; block_no++)` loop
of `ext2_read`, recursing on the remaining iteration count.  Returns the
caller's buffer and the scratch buffer after the loop.  The destination
offset of a middle-block copy is written exactly as in the source:
`start_offset + (block_no - start_block)*block_size - start_offset`. -/
def ext2ReadLoop (st : MState) (ino : Inode) (startBlock startOffset : ℕ) :
    ℕ → ℕ → (ℕ → ℕ) → (ℕ → ℕ) → ((ℕ → ℕ) × (ℕ → ℕ))
  | _, 0, buf, tmp => (buf, tmp)
  | blockNo, count + 1, buf, tmp =>
    let tmp1 := (ext2_read_inode_block st ino blockNo tmp).buf
    let buf1 :=
      if blockNo = startBlock then
        memcpyF buf 0 (fun j => tmp1 (startOffset + j)) (st.blockSize - startOffset)
      else
        memcpyF buf (startOffset + (blockNo - startBlock) * st.blockSize - startOffset)
          tmp1 st.blockSize
    ext2ReadLoop st ino startBlock startOffset (blockNo + 1) count buf1 tmp1

/-- Body of `ext2_read` once the inode is resolved.  `uint32_t` sums that can
wrap carry an explicit `% 2^32`; the scratch block buffer starts as kmalloc
garbage, modelled as all zeroes. -/
def ext2_read_ino (st : MState) (ino : Inode) (offset : ℕ) (buf : ℕ → ℕ)
    (size : ℕ) : ℕ × (ℕ → ℕ) :=
  let fsize := ino.sizeLower
  if size = 0 ∨ fsize = 0 ∨ fsize ≤ offset then (0, buf)
  else
    let sum := (offset + size) % 4294967296
    let e := if fsize < sum then fsize else sum
    let bytesRead := (e + 4294967296 - offset) % 4294967296
    let startBlock := offset / st.blockSize
    let endBlock := e / st.blockSize
    let startOffset := offset % st.blockSize
    let endOffset := e % st.blockSize
    if startBlock = endBlock then
      let tmp := (ext2_read_inode_block st ino startBlock (fun _ => 0)).buf
      (bytesRead, memcpyF buf 0 (fun j => tmp (startOffset + j)) bytesRead)
    else
      let lp := ext2ReadLoop st ino startBlock startOffset startBlock
        (endBlock - startBlock) buf (fun _ => 0)
      if endOffset ≠ 0 then
        let tmp := (ext2_read_inode_block st ino endBlock lp.2).buf
        (bytesRead,
          memcpyF lp.1 ((endBlock - startBlock) * st.blockSize - startOffset) tmp
            endOffset)
      else (bytesRead, lp.1)

/-- `ext2_read(inode, offset, buf, size)`: returns the byte count and the
caller's buffer after the call. -/
def ext2_read (st : MState) (inode offset : ℕ) (buf : ℕ → ℕ) (size : ℕ) :
    ℕ × (ℕ → ℕ) :=
  match ext2_get_inode st inode with
  | none => (0, buf)
  | some ino => ext2_read_ino st ino offset buf size

/-- Modelled from the spec: the fixed root inode number.  `EXT2_ROOT_INODE`
comes from `kernel/ext2.h`, which is not under `src/`; spec §4.5 fixes the
root inode number to 2, matching the literal `return 2;` in `ext2_open`. -/
def EXT2_ROOT_INODE : ℕ := 2

/-- Modelled from the spec: on-disk directory-entry layout
(`ext2_directory_entry_t` is declared in the missing `kernel/ext2.h`).
Spec §6: inode number (4 bytes), record length (2 bytes), name length
(1 byte), type tag (1 byte), then name bytes.  Type tag of the entry
starting at byte `off`. -/
def entType (block : ℕ → ℕ) (off : ℕ) : ℕ := byteAt block (off + 7)

/-- Record length (`entry_size`) of the entry starting at byte `off`
(see `entType` for the modelled layout). -/
def entSizeD (block : ℕ → ℕ) (off : ℕ) : ℕ := u16At block (off + 4)

/-- Inode number of the entry starting at byte `off`. -/
def entInode (block : ℕ → ℕ) (off : ℕ) : ℕ := u32At block off

/-- Length of the path component starting at index `i`: `strchrnul(p, '/')`
stops at the first `/` (byte 47) or at the end of the string. -/
def compLen (path : List ℕ) (i : ℕ) : ℕ :=
  ((path.drop i).takeWhile (fun c => c ≠ 47)).length

/-- The `memcmp(p, entry->name, len) == 0` test of `ext2_open`: the `len`
path bytes starting at `i` equal the first `len` name bytes of the entry. -/
def nameMatches (path : List ℕ) (i len : ℕ) (block : ℕ → ℕ) (off : ℕ) : Bool :=
  (List.range len).all fun k => path.getD (i + k) 0 == byteAt block (off + 8 + k)

/-- The directory-scanning `while` loop of `ext2_open`, with an explicit fuel
(`none` = the C loop has not terminated within `fuel` iterations).  State:
current path index `pIdx`, current directory block contents, and the byte
offset of the entry under scan.  After descending into a subdirectory the
source advances past the first entry of the new block (`entry = entry +
entry->entry_size` runs on the fresh block), which is reproduced here. -/
def ext2_openLoop (st : MState) (path : List ℕ) :
    ℕ → (ℕ → ℕ) → ℕ → ℕ → Option ℕ
  | _, _, _, 0 => none
  | pIdx, block, entOff, fuel + 1 =>
    if pIdx < path.length ∧ entType block entOff ≠ 0 then
      let len := compLen path pIdx
      if nameMatches path pIdx len block entOff then
        if path.length ≤ pIdx + len + 1 then some (entInode block entOff)
        else
          match ext2_get_inode st (entInode block entOff) with
          | none => some 0
          | some ino =>
            let block2 := blockContent st (ino.dbp 0)
            ext2_openLoop st path (pIdx + len + 1) block2 (entSizeD block2 0) fuel
      else ext2_openLoop st path pIdx block (entOff + entSizeD block entOff) fuel
    else some 0

/-- `ext2_open(path)`: reject paths not starting with `/` (an empty C string
reads its terminating NUL, modelled by `getD _ 0`), return inode 2 for the
one-character path `/`, otherwise scan directory entries starting from the
root inode's first data block. -/
def ext2_open (st : MState) (path : List ℕ) (fuel : ℕ) : Option ℕ :=
  if path.getD 0 0 ≠ 47 then some 0
  else if path.length = 1 then some 2
  else
    match ext2_get_inode st EXT2_ROOT_INODE with
    | none => some 0
    | some ino => ext2_openLoop st path 1 (blockContent st (ino.dbp 0)) 0 fuel

/-- Upper bound of the allocator scan:
`superblock->blocks_per_group * num_block_groups`. -/
def allocBound (st : MState) : ℕ := st.blocksPerGroup * st.numBlockGroups

/-- The scan loop of `ext2_allocate_block`, recursing on fuel.  Each iteration
mirrors the source: reload the bitmap block number on a group boundary or on
the first iteration (`j == first_available_block`), reload the cached bitmap
block into `tmp` on a bitmap-block boundary or on the first iteration
(incrementing `bitmap` after the read), then test bit `j` of the cached
block; on a clear bit, set it (a `uint8_t` store, hence `% 256`), write the
block back to `bitmap - 1`, and return `j`. -/
def allocLoop (st : MState) :
    (ℕ → ℕ) → ℕ → ℕ → ℕ → ℕ × MState
  | _, _, _, 0 => (0, st)
  | tmp, bitmap, j, fuel + 1 =>
    if j < allocBound st then
      let bitmap1 :=
        if j % st.blocksPerGroup = 0 ∨ j = st.firstAvailableBlock then
          (st.gd (j / st.blocksPerGroup)).blockBitmap
        else bitmap
      let tmp1 :=
        if j % (8 * st.blockSize) = 0 ∨ j = st.firstAvailableBlock then
          blockContent st bitmap1
        else tmp
      let bitmap2 :=
        if j % (8 * st.blockSize) = 0 ∨ j = st.firstAvailableBlock then bitmap1 + 1
        else bitmap1
      if Nat.testBit (tmp1 (j / 8)) (j % 8) = false then
        let tmp2 := fun k =>
          if k = j / 8 then (tmp1 (j / 8) ||| (1 <<< (j % 8))) % 256 else tmp1 k
        (j, writeBlockState st (bitmap2 - 1) tmp2)
      else allocLoop st tmp1 bitmap2 (j + 1) fuel
    else (0, st)

/-- `ext2_allocate_block()`: first-fit scan from
`superblock->first_available_block`; returns the allocated block number and
the state after the bitmap write-back, or `(0, st)` on exhaustion.  The
uninitialised locals `tmp` and `bitmap` are given dummy values; the source
assigns both on the first iteration before use. -/
def ext2_allocate_block (st : MState) : ℕ × MState :=
  allocLoop st (fun _ => 0) 0 st.firstAvailableBlock
    (allocBound st - st.firstAvailableBlock + 1)

/-- `ext2_readdir(inode, offset)`: read the fixed 8-byte entry header
(`sizeof(ext2_directory_entry_t)`, layout modelled from the spec, see
`entType`), bail out on a zero-byte read, then read `entry_size` bytes in
full.  `entBuf0` is the initial content of the stack-allocated header struct
and `heapBuf0` that of the kmalloc'ed record, both uninitialised in C. -/
def ext2_readdir (st : MState) (inode offset : ℕ) (entBuf0 heapBuf0 : ℕ → ℕ) :
    Option (ℕ → ℕ) :=
  let r1 := ext2_read st inode offset entBuf0 8
  if r1.1 = 0 then none
  else
    let r2 := ext2_read st inode offset heapBuf0 (u16At r1.2 4)
    if r2.1 = 0 then none else some r2.2

/-- The superblock fields the driver reads, with their byte offsets inside
the 1024-byte superblock region (from the `superblock_t` declaration):
magic at 56, blocks_count at 4, block_size exponent at 24, blocks_per_group
at 32, inodes_per_group at 40, first_available_block at 84, inode_size
at 88. -/
structure Superblock where
  magic : ℕ
  blocksCount : ℕ
  blockSizeLog : ℕ
  blocksPerGroup : ℕ
  inodesPerGroup : ℕ
  firstAvailableBlock : ℕ
  inodeSize : ℕ

/-- Modelled from the spec: `EXT2_MAGIC` is defined in the missing
`kernel/ext2.h`; the spec only requires a fixed expected signature constant,
and the well-known ext2 signature value is used.  No claim depends on the
numeric value, only on equality with it. -/
def EXT2_MAGIC : ℕ := 61267

/-- Modelled from the spec: `divide_up` from `kernel/sys.h` (not under
`src/`); spec §3 defines `num_block_groups = ceil(blocks_count /
blocks_per_group)`. -/
def divide_up (a b : ℕ) : ℕ := (a + b - 1) / b

/-- `sizeof(superblock_t)` computed from the struct declaration in ext2.c. -/
def sizeofSuperblock : ℕ := 236

/-- `parse_superblock(data)`: check the magic signature at byte offset 56 of
the copied superblock; on success return the parsed superblock together with
the new values of the globals `num_block_groups` and `block_size`
(`1024 << sb->block_size`, a `uint32_t`). -/
def parse_superblock (data : ℕ → ℕ) : Option (Superblock × ℕ × ℕ) :=
  if u16At data 56 = EXT2_MAGIC then
    let sb : Superblock :=
      { magic := u16At data 56
        blocksCount := u32At data 4
        blockSizeLog := u32At data 24
        blocksPerGroup := u32At data 32
        inodesPerGroup := u32At data 40
        firstAvailableBlock := u32At data 84
        inodeSize := u16At data 88 }
    some (sb, divide_up sb.blocksCount sb.blocksPerGroup,
      (1024 <<< sb.blockSizeLog) % 4294967296)
  else none

/-- `parse_group_descriptors(data)`: the descriptor records are 32 bytes
apart; the used fields sit at offsets 0, 4 and 8 of each record. -/
def parse_group_descriptors (data : ℕ → ℕ) : ℕ → GroupDesc :=
  fun g =>
    { blockBitmap := u32At data (32 * g)
      inodeBitmap := u32At data (32 * g + 4)
      inodeTable := u32At data (32 * g + 8) }

/-- The process-wide globals as they exist before/after mount: the
superblock and group-descriptor pointers may be null (`none`). -/
structure GState where
  device : ℕ → ℕ
  numBlockGroups : ℕ
  blockSize : ℕ
  superblock : Option Superblock
  groupDescriptors : Option (ℕ → GroupDesc)

/-- Package the globals established by a successful mount into the
mounted-volume state used by the operations. -/
def mstateOf (dev : ℕ → ℕ) (bs : ℕ) (sb : Superblock) (nbg : ℕ)
    (gds : ℕ → GroupDesc) : MState :=
  { device := dev
    blockSize := bs
    inodesPerGroup := sb.inodesPerGroup
    inodeSize := sb.inodeSize
    blocksPerGroup := sb.blocksPerGroup
    firstAvailableBlock := sb.firstAvailableBlock
    numBlockGroups := nbg
    gd := gds }

/-- State after `k` successive `ext2_allocate_block()` calls. -/
def allocStateAt (st : MState) : ℕ → MState
  | 0 => st
  | k + 1 => (ext2_allocate_block (allocStateAt st k)).2

/-- `init_ext2(data, len)`: reject a truncated volume untouched; set the
`device` global; parse the superblock (on a bad magic the `superblock`
global receives the NULL return and mount aborts); otherwise parse the
group descriptors and issue the six `ext2_allocate_block()` calls present
in the source before returning. -/
def init_ext2 (g : GState) (data : ℕ → ℕ) (len : ℕ) : GState :=
  if len < 1024 + sizeofSuperblock then g
  else
    match parse_superblock (fun i => data (1024 + i)) with
    | none => { g with device := data, superblock := none }
    | some (sb, nbg, bs) =>
      let gds := parse_group_descriptors (fun i => data (2048 + i))
      let m0 := mstateOf data bs sb nbg gds
      let m6 := allocStateAt m0 6
      { device := m6.device
        numBlockGroups := nbg
        blockSize := bs
        superblock := some sb
        groupDescriptors := some gds }

/-- Concrete device image for a one-group volume: block size 1024, inode
table at block 20.  Inode 5 is a 4096-byte regular file with direct blocks
3, 4, 5, 6 (record at byte 20992); inode 6 is a 4-byte directory with first
data block 7 (record at byte 21120).  Blocks 3..6 carry the pattern
`a % 97 + 1`. -/
def devC2 : ℕ → ℕ := fun a =>
  if a = 20997 then 16
  else if a = 21032 then 3
  else if a = 21036 then 4
  else if a = 21040 then 5
  else if a = 21044 then 6
  else if a = 21124 then 4
  else if a = 21160 then 7
  else if 3072 ≤ a ∧ a < 7168 then a % 97 + 1
  else 0

/-- Mounted state over `devC2`: 64 blocks in one group, inode size 128,
16 inodes per group, block bitmap at block 10, inode table at block 20. -/
def stC2 : MState :=
  { device := devC2
    blockSize := 1024
    inodesPerGroup := 16
    inodeSize := 128
    blocksPerGroup := 64
    firstAvailableBlock := 1
    numBlockGroups := 1
    gd := fun _ => { blockBitmap := 10, inodeBitmap := 11, inodeTable := 20 } }

/-- Device image exercising the triple-indirect branch: the pointer chain is
block 30 → 31 → 32 → 33 (each pointer block's first entry points to the
next), and the data block 33 starts with byte 99. -/
def devC1 : ℕ → ℕ := fun a =>
  if a = 30720 then 31
  else if a = 31744 then 32
  else if a = 32768 then 33
  else if a = 33792 then 99
  else 0

/-- Mounted state over `devC1` (same geometry as `stC2`). -/
def stC1 : MState := { stC2 with device := devC1 }

/-- An inode whose triple-indirect pointer is block 30. -/
def inoT : Inode :=
  { typePerms := 0, sizeLower := 0, dbp := fun _ => 0, sibp := 0, dibp := 0
    tibp := 30, sizeUpper := 0 }

/-- All-zero inode, used for boundary-routing witnesses. -/
def inoZ : Inode :=
  { typePerms := 0, sizeLower := 0, dbp := fun _ => 0, sibp := 0, dibp := 0
    tibp := 0, sizeUpper := 0 }

/-- An arbitrary pre-mount superblock value, to exhibit mutation of the
`superblock` global. -/
def sbW : Superblock :=
  { magic := EXT2_MAGIC, blocksCount := 8, blockSizeLog := 0, blocksPerGroup := 8
    inodesPerGroup := 8, firstAvailableBlock := 11, inodeSize := 128 }

/-- Pre-mount globals holding a previously mounted volume's state. -/
def gW : GState :=
  { device := fun _ => 0
    numBlockGroups := 5
    blockSize := 2048
    superblock := some sbW
    groupDescriptors := some fun _ => { blockBitmap := 1, inodeBitmap := 2, inodeTable := 3 } }

/-- A buffer whose every byte is 7: its embedded magic is 1799, not
`EXT2_MAGIC`. -/
def dataBad : ℕ → ℕ := fun _ => 7

/-- Byte image of a valid 64 KiB volume: magic at 1080/1081, 64 blocks of
1024 bytes in one group of 64, 16 inodes per group, inode size 128,
first_available_block 1, block bitmap at block 10 (all clear). -/
def dataC9 : ℕ → ℕ := fun a =>
  if a = 1028 then 64
  else if a = 1056 then 64
  else if a = 1064 then 16
  else if a = 1080 then 83
  else if a = 1081 then 239
  else if a = 1108 then 1
  else if a = 1112 then 128
  else if a = 2048 then 10
  else 0

/-- Empty pre-mount globals for the successful-mount demonstration. -/
def g0C9 : GState :=
  { device := fun _ => 0
    numBlockGroups := 0
    blockSize := 0
    superblock := none
    groupDescriptors := none }

/-- The superblock `parse_superblock` extracts from `dataC9`. -/
def sbC9 : Superblock :=
  { magic := 61267, blocksCount := 64, blockSizeLog := 0, blocksPerGroup := 64
    inodesPerGroup := 16, firstAvailableBlock := 1, inodeSize := 128 }

/-- C1 (code bug): at logical block `n = 12 + p + p² = 65804` (block size
1024, so `p = 256`, `rel = 0`), the translator follows the three-hop chain
30 → 31 → 32 and reads data block 33 (whose first byte is 99), but the
caller's buffer is returned unchanged (still 170 everywhere): the source
reads the final block into its internal scratch buffer, never into `buf`. -/
theorem triple_indirect_not_copied :
    (ext2_read_inode_block stC1 inoT 65804 (fun _ => 170)).trace = [30, 31, 32, 33] ∧
    stC1.device 33792 = 99 ∧
    (ext2_read_inode_block stC1 inoT 65804 (fun _ => 170)).buf 0 = 170 ∧
    (ext2_read_inode_block stC1 inoT 65804 (fun _ => 170)).err = false := by
  refine ⟨by decide, by decide, by decide, by decide⟩

/-- C2 (code bug): reading bytes [1, 2561) of the 3-block file at inode 5
(start_offset 1, end_offset 513) returns 2560 bytes, but the output byte at
position `block_size - start_offset = 1023` — which per the claim must be the
middle block's first byte, `devC2 4096 = 23` — is left at the initial buffer
value 170, and the middle block's first byte lands at position 1024 instead:
the middle-block copy destination `start_offset + (block_no -
start_block)*block_size - start_offset` cancels to `(block_no -
start_block)*block_size` rather than subtracting `start_offset`. -/
theorem ext2_read_middle_block_misplaced :
    (ext2_read stC2 5 1 (fun _ => 170) 2560).1 = 2560 ∧
    (ext2_read stC2 5 1 (fun _ => 170) 2560).2 1023 = 170 ∧
    (ext2_read stC2 5 1 (fun _ => 170) 2560).2 1024 = devC2 4096 ∧
    devC2 4096 = 23 ∧ devC2 4097 = 24 := by
  refine ⟨by decide, by decide, by decide, by decide, by decide⟩

/-- C7 counterexample: mounting a large-enough buffer whose magic does not
match mutates process-wide state, contrary to the claim: the `device`
global now points at the new buffer (byte 0 reads 7, previously 0) and the
`superblock` global has been overwritten with the NULL parse result. -/
theorem init_ext2_mutates_on_bad_magic :
    (init_ext2 gW dataBad 4096).superblock.isNone = true ∧
    gW.superblock.isSome = true ∧
    (init_ext2 gW dataBad 4096).device 0 = 7 ∧
    gW.device 0 = 0 := by
  refine ⟨by decide, by decide, by decide, by decide⟩

/-- C8 counterexample: reading directory inode 6 (file size 4) at offset 0,
the first phased read requests 8 header bytes but returns only 4 — a short
read — yet `ext2_readdir` still returns an entry, because the source only
checks for a zero-byte read. -/
theorem ext2_readdir_short_read_not_detected :
    (ext2_read stC2 6 0 (fun _ => 12) 8).1 = 4 ∧
    (ext2_readdir stC2 6 0 (fun _ => 12) (fun _ => 0)).isSome = true := by
  refine ⟨by decide, by decide⟩

/-- The translator's output does not depend on the inode's `size_upper`. -/
lemma rib_sizeUpper (st : MState) (i : Inode) (n : ℕ) (buf : ℕ → ℕ) (u : ℕ) :
    ext2_read_inode_block st { i with sizeUpper := u } n buf =
      ext2_read_inode_block st i n buf := rfl

/-- The multi-block copy loop does not depend on the inode's `size_upper`. -/
lemma readLoop_sizeUpper (st : MState) (i : Inode) (sb so u : ℕ) :
    ∀ c bn buf tmp, ext2ReadLoop st { i with sizeUpper := u } sb so bn c buf tmp =
      ext2ReadLoop st i sb so bn c buf tmp := by
  intro c
  induction c with
  | zero => intro bn buf tmp; rfl
  | succ c ih =>
    intro bn buf tmp
    simp only [ext2ReadLoop, rib_sizeUpper, ih]

/-- The resolved-inode read body does not depend on `size_upper`. -/
lemma read_ino_sizeUpper (st : MState) (i : Inode) (offset : ℕ) (buf : ℕ → ℕ)
    (size u : ℕ) :
    ext2_read_ino st { i with sizeUpper := u } offset buf size =
      ext2_read_ino st i offset buf size := by
  simp only [ext2_read_ino, rib_sizeUpper, readLoop_sizeUpper]

/-- C10: `ext2_read` clamps only against the inode's `size_lower`; the
`size_upper` half is ignored, so the result of any read is unchanged when
the resolved inode's `size_upper` is replaced by an arbitrary value `u` —
reads behave exactly as if the file's size were `size_lower`. -/
theorem ext2_read_ignores_size_upper (st : MState) (n offset : ℕ)
    (buf : ℕ → ℕ) (size u : ℕ) :
    ext2_read st n offset buf size =
      match ext2_get_inode st n with
      | none => (0, buf)
      | some i => ext2_read_ino st { i with sizeUpper := u } offset buf size := by
  unfold ext2_read
  cases ext2_get_inode st n with
  | none => rfl
  | some i => exact (read_ino_sizeUpper st i offset buf size u).symm

lemma byteAt_lt (f : ℕ → ℕ) (i : ℕ) : byteAt f i < 256 :=
  Nat.mod_lt _ (by norm_num)

lemma u32At_lt (f : ℕ → ℕ) (i : ℕ) : u32At f i < 4294967296 := by
  have h0 := byteAt_lt f i
  have h1 := byteAt_lt f (i + 1)
  have h2 := byteAt_lt f (i + 2)
  have h3 := byteAt_lt f (i + 3)
  unfold u32At
  omega

lemma get_inode_sizeLower_lt (st : MState) (n : ℕ) (i : Inode)
    (h : ext2_get_inode st n = some i) : i.sizeLower < 4294967296 := by
  unfold ext2_get_inode at h
  split at h
  · exact absurd h (by simp)
  · rw [Option.some_inj] at h
    rw [← h]
    exact u32At_lt _ _

lemma ext2_read_ino_fst (st : MState) (ino : Inode) (offset : ℕ)
    (buf : ℕ → ℕ) (size : ℕ) :
    (ext2_read_ino st ino offset buf size).1 =
      if size = 0 ∨ ino.sizeLower = 0 ∨ ino.sizeLower ≤ offset then 0
      else ((if ino.sizeLower < (offset + size) % 4294967296 then ino.sizeLower
             else (offset + size) % 4294967296) + 4294967296 - offset) %
        4294967296 := by
  unfold ext2_read_ino
  by_cases hg : size = 0 ∨ ino.sizeLower = 0 ∨ ino.sizeLower ≤ offset
  · rw [if_pos hg, if_pos hg]
  · rw [if_neg hg, if_neg hg]
    simp [apply_ite Prod.fst]

/-- C3: `ext2_read(inode, offset, buf, size)` returns 0 when the inode does
not resolve, when `size = 0`, when the recorded file size is 0, or when
`offset` is at or beyond the file size; otherwise it returns
`min(offset + size, file_size) - offset`, which may be less than `size` when
clamped by the file size.  The hypothesis keeps the `uint32_t` sum
`offset + size` from wrapping. -/
theorem ext2_read_return_value (st : MState) (n offset : ℕ) (buf : ℕ → ℕ)
    (size : ℕ) (h : offset + size < 4294967296) :
    (ext2_read st n offset buf size).1 =
      match ext2_get_inode st n with
      | none => 0
      | some i =>
        if size = 0 ∨ i.sizeLower = 0 ∨ i.sizeLower ≤ offset then 0
        else min (offset + size) i.sizeLower - offset := by
  cases hi : ext2_get_inode st n with
  | none => simp [ext2_read, hi]
  | some i =>
    have hL : i.sizeLower < 4294967296 := get_inode_sizeLower_lt st n i hi
    simp only [ext2_read, hi]
    rw [ext2_read_ino_fst, Nat.mod_eq_of_lt h]
    split_ifs with hg hlt
    · rfl
    · push_neg at hg
      rw [show i.sizeLower + 4294967296 - offset = i.sizeLower - offset + 4294967296
            by omega,
          Nat.add_mod_right, Nat.mod_eq_of_lt (by omega),
          min_eq_right (le_of_lt hlt)]
    · push_neg at hg
      rw [show offset + size + 4294967296 - offset = size + 4294967296 by omega,
          Nat.add_mod_right, Nat.mod_eq_of_lt (by omega),
          min_eq_left (by omega)]
      exact (Nat.add_sub_cancel_left offset size).symm

/-- Witness for C3 at a concrete call: reading 100 bytes at offset 0 of the
4096-byte file at inode 5 returns 100. -/
theorem ext2_read_return_value_witness :
    (0 : ℕ) + 100 < 4294967296 ∧ (ext2_read stC2 5 0 (fun _ => 0) 100).1 = 100 := by
  refine ⟨by norm_num, ?_⟩
  rw [ext2_read_return_value stC2 5 0 (fun _ => 0) 100 (by norm_num)]
  decide

/-- C5: path resolution rejects (returns 0 for) every path whose first byte
is not `/` (an empty path reads its NUL terminator, byte 0); the
single-character path `/` resolves to the fixed root inode number 2; and the
scanning loop returns 0 as soon as it reaches a terminal entry whose type
byte is zero while path components remain, i.e. a directory level's entries
are exhausted without a match. -/
theorem ext2_open_basic (st : MState) (path : List ℕ) (fuel : ℕ) :
    (path.getD 0 0 ≠ 47 → ext2_open st path fuel = some 0) ∧
    (path = [47] → ext2_open st path fuel = some 2) ∧
    (∀ pIdx block entOff f, pIdx < path.length → entType block entOff = 0 →
      ext2_openLoop st path pIdx block entOff (f + 1) = some 0) := by
  refine ⟨?_, ?_, ?_⟩
  · intro h
    unfold ext2_open
    rw [if_pos h]
  · intro h
    subst h
    simp [ext2_open]
  · intro pIdx block entOff f hlt hty
    simp [ext2_openLoop, hty]

/-- Witness for C5: on the concrete mounted state `stC2`, resolving the
path `a` (no leading slash) yields 0, resolving `/` yields inode 2, and a
scan that starts at an all-zero entry with one component left yields 0. -/
theorem ext2_open_basic_witness :
    ext2_open stC2 [97] 3 = some 0 ∧ ext2_open stC2 [47] 3 = some 2 ∧
    ext2_openLoop stC2 [47, 97] 1 (fun _ => 0) 0 (2 + 1) = some 0 :=
  ⟨(ext2_open_basic stC2 [97] 3).1 (by decide),
   (ext2_open_basic stC2 [47] 3).2.1 rfl,
   (ext2_open_basic stC2 [47, 97] 3).2.2 1 (fun _ => 0) 0 2 (by decide) (by decide)⟩

/-- State with the legal ext2 block size 8192, under which `p = 2048` and
the `uint32_t` product `p*p*p = 2^33` wraps to 0. -/
def stBig : MState := { stC2 with blockSize := 8192 }

/-- C4 counterexample: at block size 8192 (`p = 2048`) the source computes
the triple-indirect ceiling `12 + p + p² + p³` in `uint32_t`; `p³ = 2³³`
wraps to 0, so the boundary index `12 + p + p² = 4196364` — which the claim
says routes through exactly three levels of indirection — falls through
every range guard and is reported as the out-of-range error instead: no
block is read. -/
theorem triple_boundary_wraps_at_8k :
    (ext2_read_inode_block stBig inoZ 4196364 (fun _ => 0)).err = true ∧
    (ext2_read_inode_block stBig inoZ 4196364 (fun _ => 0)).trace = [] := by
  refine ⟨by decide, by decide⟩

/-- C4 (amended): with `p = block_size/4`, and provided the `uint32_t`
computation of the ceiling does not wrap (`12 + p + p² + p³ < 2³²`, true of
every standard block size up to 4096), logical indices 11, 12, 12+p-1,
12+p, 12+p+p²-1 and 12+p+p² route through exactly 0, 1, 1, 2, 2 and 3
levels of indirection: the translator performs 1, 2, 2, 3, 3 and 4 block
reads respectively (the last read of each trace is the data block, the ones
before it the indirection hops), and every index at or beyond
`12+p+p²+p³` performs no read at all and reports the out-of-range
diagnostic instead of translating. -/
theorem block_translation_boundaries (st : MState) (ino : Inode) (buf : ℕ → ℕ)
    (p : ℕ) (hp : st.blockSize / 4 = p) (h1 : 1 ≤ p)
    (hw : 12 + p + p * p + p * p * p < 4294967296) :
    ((ext2_read_inode_block st ino 11 buf).trace.length = 1 ∧
      (ext2_read_inode_block st ino 11 buf).err = false) ∧
    ((ext2_read_inode_block st ino 12 buf).trace.length = 2 ∧
      (ext2_read_inode_block st ino 12 buf).err = false) ∧
    ((ext2_read_inode_block st ino (12 + p - 1) buf).trace.length = 2 ∧
      (ext2_read_inode_block st ino (12 + p - 1) buf).err = false) ∧
    ((ext2_read_inode_block st ino (12 + p) buf).trace.length = 3 ∧
      (ext2_read_inode_block st ino (12 + p) buf).err = false) ∧
    ((ext2_read_inode_block st ino (12 + p + p * p - 1) buf).trace.length = 3 ∧
      (ext2_read_inode_block st ino (12 + p + p * p - 1) buf).err = false) ∧
    ((ext2_read_inode_block st ino (12 + p + p * p) buf).trace.length = 4 ∧
      (ext2_read_inode_block st ino (12 + p + p * p) buf).err = false) ∧
    (∀ n, 12 + p + p * p + p * p * p ≤ n →
      (ext2_read_inode_block st ino n buf).trace = [] ∧
      (ext2_read_inode_block st ino n buf).err = true) := by
  have hq : 1 ≤ p * p := Nat.mul_pos h1 h1
  have hr : 1 ≤ p * p * p := Nat.mul_pos hq h1
  have e1 : (12 + p) % 4294967296 = 12 + p := Nat.mod_eq_of_lt (by omega)
  have e2 : p * p % 4294967296 = p * p := Nat.mod_eq_of_lt (by omega)
  have e3 : (12 + p + p * p) % 4294967296 = 12 + p + p * p :=
    Nat.mod_eq_of_lt (by omega)
  have e4 : p * p * p % 4294967296 = p * p * p := Nat.mod_eq_of_lt (by omega)
  have e5 : (12 + p + p * p + p * p * p) % 4294967296 =
      12 + p + p * p + p * p * p := Nat.mod_eq_of_lt (by omega)
  refine ⟨?_, ?_, ?_, ?_, ?_, ?_, ?_⟩
  · simp only [ext2_read_inode_block]
    rw [hp, e1, e2, e3, e4, e5, if_pos (by omega)]
    exact ⟨rfl, rfl⟩
  · simp only [ext2_read_inode_block]
    rw [hp, e1, e2, e3, e4, e5, if_neg (by omega), if_pos (by omega)]
    exact ⟨rfl, rfl⟩
  · simp only [ext2_read_inode_block]
    rw [hp, e1, e2, e3, e4, e5, if_neg (by omega), if_pos (by omega)]
    exact ⟨rfl, rfl⟩
  · simp only [ext2_read_inode_block]
    rw [hp, e1, e2, e3, e4, e5, if_neg (by omega), if_neg (by omega),
      if_pos (by omega)]
    exact ⟨rfl, rfl⟩
  · simp only [ext2_read_inode_block]
    rw [hp, e1, e2, e3, e4, e5, if_neg (by omega), if_neg (by omega),
      if_pos (by omega)]
    exact ⟨rfl, rfl⟩
  · simp only [ext2_read_inode_block]
    rw [hp, e1, e2, e3, e4, e5, if_neg (by omega), if_neg (by omega),
      if_neg (by omega), if_pos (by omega)]
    exact ⟨rfl, rfl⟩
  · intro n hn
    simp only [ext2_read_inode_block]
    rw [hp, e1, e2, e3, e4, e5, if_neg (by omega), if_neg (by omega),
      if_neg (by omega), if_neg (by omega)]
    exact ⟨rfl, rfl⟩

/-- Witness for C4's amended statement at block size 1024 (`p = 256`, where
the ceiling computation stays below `2³²`) on the concrete state `stC2`
with the all-zero inode: index 11 takes one read, the triple start
`12 + 256 + 256² = 65804` takes four, and `12+p+p²+p³ = 16843020` errors. -/
theorem block_translation_boundaries_witness :
    stC2.blockSize / 4 = 256 ∧ (1 : ℕ) ≤ 256 ∧
    (12 : ℕ) + 256 + 256 * 256 + 256 * 256 * 256 < 4294967296 ∧
    (ext2_read_inode_block stC2 inoZ 11 (fun _ => 0)).trace.length = 1 ∧
    (ext2_read_inode_block stC2 inoZ 65804 (fun _ => 0)).trace.length = 4 ∧
    (ext2_read_inode_block stC2 inoZ 16843020 (fun _ => 0)).err = true :=
  ⟨rfl, by decide, by decide,
   (block_translation_boundaries stC2 inoZ (fun _ => 0) 256 rfl (by decide)
      (by decide)).1.1,
   (block_translation_boundaries stC2 inoZ (fun _ => 0) 256 rfl (by decide)
      (by decide)).2.2.2.2.2.1.1,
   ((block_translation_boundaries stC2 inoZ (fun _ => 0) 256 rfl (by decide)
      (by decide)).2.2.2.2.2.2 16843020 (by decide)).2⟩

/-- C7 (amended): a truncated volume (`len < 1024 + sizeof(superblock_t)`)
leaves every global untouched; a large-enough volume whose magic does not
match fails the mount with the `device` global pointing at the new buffer
and the `superblock` global overwritten with NULL, while the block size,
block-group count and group-descriptor array remain as they were. -/
theorem init_ext2_reject (g : GState) (data : ℕ → ℕ) (len : ℕ) :
    (len < 1024 + sizeofSuperblock → init_ext2 g data len = g) ∧
    (1024 + sizeofSuperblock ≤ len →
      u16At (fun i => data (1024 + i)) 56 ≠ EXT2_MAGIC →
      init_ext2 g data len = { g with device := data, superblock := none }) := by
  constructor
  · intro h
    unfold init_ext2
    rw [if_pos h]
  · intro hlen hmagic
    have hp : parse_superblock (fun i => data (1024 + i)) = none := by
      unfold parse_superblock
      rw [if_neg hmagic]
    unfold init_ext2
    rw [if_neg (by omega), hp]

/-- Witness for C7's amended statement: a 100-byte buffer is rejected with
no mutation, and a 4096-byte all-sevens buffer (magic 1799) aborts the
mount leaving only `device` and `superblock` changed. -/
theorem init_ext2_reject_witness :
    init_ext2 gW dataBad 100 = gW ∧
    init_ext2 gW dataBad 4096 = { gW with device := dataBad, superblock := none } :=
  ⟨(init_ext2_reject gW dataBad 100).1 (by decide),
   (init_ext2_reject gW dataBad 4096).2 (by decide) (by decide)⟩

/-- C8 (amended): `ext2_readdir(inode, offset)` returns `None` exactly when
one of its two phased reads returns zero bytes — the 8-byte header read, or
the follow-up read of the `entry_size` parsed from the header buffer.  A
short-but-nonzero read is not detected (see the counterexample). -/
theorem ext2_readdir_none_iff (st : MState) (inode offset : ℕ)
    (entBuf0 heapBuf0 : ℕ → ℕ) :
    ext2_readdir st inode offset entBuf0 heapBuf0 = none ↔
      ((ext2_read st inode offset entBuf0 8).1 = 0 ∨
        (ext2_read st inode offset heapBuf0
          (u16At (ext2_read st inode offset entBuf0 8).2 4)).1 = 0) := by
  unfold ext2_readdir
  by_cases h1 : (ext2_read st inode offset entBuf0 8).1 = 0
  · simp [h1]
  · simp only [h1, if_false, if_neg h1]
    by_cases h2 : (ext2_read st inode offset heapBuf0
        (u16At (ext2_read st inode offset entBuf0 8).2 4)).1 = 0
    · simp [h2]
    · simp [h1, h2]

/-- Device byte offset of the start of group 0's block bitmap. -/
def bitmapBase (st : MState) : ℕ := (st.gd 0).blockBitmap * st.blockSize

/-- The state after setting bit `j` of group 0's on-device bitmap: only the
byte holding bit `j` changes. -/
def setDev (st : MState) (j : ℕ) : MState :=
  { st with device := fun a =>
      if a = bitmapBase st + j / 8 then
        (st.device a ||| (1 <<< (j % 8))) % 256
      else st.device a }

lemma bitmapBase_setDev (st : MState) (j : ℕ) :
    bitmapBase (setDev st j) = bitmapBase st := rfl

/-- C9: a successful mount is not free of device side effects.  First
conjunct, for every volume that passes the length and magic checks:
`init_ext2` is exactly the metadata parse followed by six successive
`ext2_allocate_block()` applications on the freshly mounted state, whose
final device image the new globals carry.  Second conjunct, on the concrete
all-clear volume `dataC9`: those six calls mark the six blocks 1-6 as
allocated in the on-device block bitmap before any caller-issued operation
runs — the bitmap byte at device offset 10240 was 0 (all free) and reads
126 (bits 1-6 set) after the mount. -/
theorem init_runs_six_allocations :
    (∀ g data len sb nbg bs, ¬ (len < 1024 + sizeofSuperblock) →
      parse_superblock (fun i => data (1024 + i)) = some (sb, nbg, bs) →
      init_ext2 g data len =
        { device := (allocStateAt (mstateOf data bs sb nbg
            (parse_group_descriptors (fun i => data (2048 + i)))) 6).device
          numBlockGroups := nbg
          blockSize := bs
          superblock := some sb
          groupDescriptors := some (parse_group_descriptors
            (fun i => data (2048 + i))) }) ∧
    ((init_ext2 g0C9 dataC9 65536).device 10240 = 126 ∧ dataC9 10240 = 0) := by
  constructor
  · intro g data len sb nbg bs hlen hparse
    unfold init_ext2
    rw [if_neg hlen, hparse]
  · exact ⟨by decide, by decide⟩

/-- Witness for C9's universally quantified part, at the concrete volume
`dataC9`: the hypotheses hold and the mounted globals carry the device
image left by the six allocation calls. -/
theorem init_runs_six_allocations_witness :
    ¬ ((65536 : ℕ) < 1024 + sizeofSuperblock) ∧
    parse_superblock (fun i => dataC9 (1024 + i)) = some (sbC9, 1, 1024) ∧
    init_ext2 g0C9 dataC9 65536 =
      { device := (allocStateAt (mstateOf dataC9 1024 sbC9 1
          (parse_group_descriptors (fun i => dataC9 (2048 + i)))) 6).device
        numBlockGroups := 1
        blockSize := 1024
        superblock := some sbC9
        groupDescriptors := some (parse_group_descriptors
          (fun i => dataC9 (2048 + i))) } :=
  ⟨by decide, rfl,
   (init_runs_six_allocations).1 g0C9 dataC9 65536 sbC9 1 1024 (by decide) rfl⟩
